import Mathlib

/-!
Verification of the STM32F3-Discovery button/LED interrupt program.

Shallow embedding of `src/main.rs`: the hardware state is the set of
memory-mapped 32-bit registers the program touches, each modelled as a
`Nat` kept below `2^32`.  Every register access of the program is
translated one-to-one (a `modify` is a read followed by a write of the
transformed value, a `write` is an unconditional store), and each access
is also recorded in an event trace so that ordering properties can be
stated.  Hardware side effects are modelled where the program relies on
them: the GPIOE bit set/reset register (BSRR) drives the output data
latch, and the EXTI pending register has write-1-to-clear semantics.
-/

namespace STM32

/-- Modulus of a 32-bit register, 2^32. -/
def UINT32_MOD : Nat := 4294967296

/-- Bitwise complement within 32 bits (Rust `!x` on a `u32`). -/
def not32 (x : Nat) : Nat := (UINT32_MOD - 1) ^^^ x

/-- Constant `OUTPUT_PIN` from the source: the LED is on Port E pin 15. -/
def OUTPUT_PIN : Nat := 15

/-- The memory-mapped registers accessed by the program, one constructor
per distinct address appearing in the source's address table. -/
inductive Reg where
  | RCC_AHBENR
  | RCC_AHB2ENR
  | GPIOE_MODER
  | GPIOE_BSRR
  | GPIOA_IDR
  | SYSCFG_EXTICR1
  | EXTI_IMR1
  | EXTI_RTSR1
  | EXTI_FTSR1
  | EXTI_PR1
  | NVIC_ISER0
  deriving DecidableEq, Repr

/-- One bus transaction performed by the program: a read returning value
`v`, or a write of value `v`, at register `r`. -/
inductive Event where
  | read (r : Reg) (v : Nat)
  | write (r : Reg) (v : Nat)
  deriving DecidableEq, Repr

/-- The register an event touches. -/
def eventReg : Event → Reg
  | .read r _ => r
  | .write r _ => r

/-- Whether an event is a write transaction. -/
def eventIsWrite : Event → Bool
  | .read _ _ => false
  | .write _ _ => true

/-- The hardware state: the value of every register the program touches.
`gpioe_odr` is the output data latch of port E, driven by writes to the
write-only BSRR; `gpioa_idr` is the externally driven input data
register; `exti_pr1` holds the pending bits of the EXTI lines. -/
@[ext]
structure MachineState where
  rcc_ahbenr : Nat
  rcc_ahb2enr : Nat
  gpioe_moder : Nat
  gpioe_odr : Nat
  gpioa_idr : Nat
  syscfg_exticr1 : Nat
  exti_imr1 : Nat
  exti_rtsr1 : Nat
  exti_ftsr1 : Nat
  exti_pr1 : Nat
  nvic_iser0 : Nat
  deriving DecidableEq, Repr

/-- Effect of writing `v` to GPIOE_BSRR on the output data latch: a 1 in
bit `i` of the lower half sets output bit `i`, a 1 in bit `16+i` of the
upper half clears it, and (per the reference manual) the set half has
priority when both are written. -/
def bsrrWrite (odr v : Nat) : Nat :=
  let bs := v &&& 65535
  let br := (v >>> 16) &&& 65535
  ((odr &&& not32 (br &&& not32 bs)) ||| bs) % UINT32_MOD

/-- Value returned by a read of register `r`.  GPIOE_BSRR is write-only
and is never read by the program; it reads as zero. -/
def regRead (s : MachineState) : Reg → Nat
  | .RCC_AHBENR => s.rcc_ahbenr
  | .RCC_AHB2ENR => s.rcc_ahb2enr
  | .GPIOE_MODER => s.gpioe_moder
  | .GPIOE_BSRR => 0
  | .GPIOA_IDR => s.gpioa_idr
  | .SYSCFG_EXTICR1 => s.syscfg_exticr1
  | .EXTI_IMR1 => s.exti_imr1
  | .EXTI_RTSR1 => s.exti_rtsr1
  | .EXTI_FTSR1 => s.exti_ftsr1
  | .EXTI_PR1 => s.exti_pr1
  | .NVIC_ISER0 => s.nvic_iser0

/-- Effect of writing `v` to register `r`.  Ordinary registers store the
value truncated to 32 bits; a write to GPIOE_BSRR drives the output
latch; the input data register ignores writes; EXTI_PR1 is
write-1-to-clear: each 1 bit of the written value clears the
corresponding pending bit. -/
def regWrite (s : MachineState) (r : Reg) (v : Nat) : MachineState :=
  let w := v % UINT32_MOD
  match r with
  | .RCC_AHBENR => { s with rcc_ahbenr := w }
  | .RCC_AHB2ENR => { s with rcc_ahb2enr := w }
  | .GPIOE_MODER => { s with gpioe_moder := w }
  | .GPIOE_BSRR => { s with gpioe_odr := bsrrWrite s.gpioe_odr w }
  | .GPIOA_IDR => s
  | .SYSCFG_EXTICR1 => { s with syscfg_exticr1 := w }
  | .EXTI_IMR1 => { s with exti_imr1 := w }
  | .EXTI_RTSR1 => { s with exti_rtsr1 := w }
  | .EXTI_FTSR1 => { s with exti_ftsr1 := w }
  | .EXTI_PR1 => { s with exti_pr1 := s.exti_pr1 &&& not32 w }
  | .NVIC_ISER0 => { s with nvic_iser0 := w }

/-- Semantics of `volatile_register::RW::modify`: read the register,
apply `f`, write the result back (two bus transactions, both recorded). -/
def modifyReg (s : MachineState) (r : Reg) (f : Nat → Nat) :
    MachineState × List Event :=
  let v := regRead s r
  let w := f v % UINT32_MOD
  (regWrite s r w, [Event.read r v, Event.write r w])

/-- Semantics of `volatile_register::RW::write`: unconditional store,
no prior read. -/
def writeReg (s : MachineState) (r : Reg) (v : Nat) :
    MachineState × List Event :=
  let w := v % UINT32_MOD
  (regWrite s r w, [Event.write r w])

/-- Embedding of `fn setup_gpioe_pin_as_output(pin: i32)`: enable the port E clock
(bit 21 of RCC_AHBENR), then configure `pin`'s 2-bit MODER field to
`0b01` (general purpose output) by clearing the field and OR-ing in the
shifted mode. -/
def setup_gpioe_pin_as_output (pin : Nat) (s : MachineState) :
    MachineState × List Event :=
  let a := modifyReg s .RCC_AHBENR fun r => r ||| (1 <<< 21)
  let pin_shift := pin * 2
  let mask := (3 <<< pin_shift) % UINT32_MOD
  let mode := 1
  let set_mode := (mode <<< pin_shift) % UINT32_MOD
  let b := modifyReg a.1 .GPIOE_MODER fun r => (r &&& not32 mask) ||| set_mode
  (b.1, a.2 ++ b.2)

/-- Embedding of `fn setup_gpioa_pin_as_input()`: enable the port A clock (bit 17 of
RCC_AHBENR); the pin itself is left in its reset-default input mode. -/
def setup_gpioa_pin_as_input (s : MachineState) : MachineState × List Event :=
  modifyReg s .RCC_AHBENR fun r => r ||| (1 <<< 17)

/-- Embedding of `fn setup_input_interrupt()`: enable the SYSCFG clock, select port A
for EXTI line 0, unmask line 0, arm both rising and falling triggers,
and finally set the vector enable bit (bit 6) in NVIC_ISER0. -/
def setup_input_interrupt (s : MachineState) : MachineState × List Event :=
  let a := modifyReg s .RCC_AHB2ENR fun r => r ||| (1 <<< 0)
  let b := modifyReg a.1 .SYSCFG_EXTICR1 fun r => r &&& not32 7
  let c := modifyReg b.1 .EXTI_IMR1 fun r => r ||| (1 <<< 0)
  let d := modifyReg c.1 .EXTI_RTSR1 fun r => r ||| (1 <<< 0)
  let e := modifyReg d.1 .EXTI_FTSR1 fun r => r ||| (1 <<< 0)
  let f := modifyReg e.1 .NVIC_ISER0 fun r => r ||| (1 <<< 6)
  (f.1, a.2 ++ b.2 ++ c.2 ++ d.2 ++ e.2 ++ f.2)

/-- Embedding of `fn set_led_on(pin: i32)`: unconditional write of `1 << pin` to the
bit set/reset register (lower half sets the pin). -/
def set_led_on (pin : Nat) (s : MachineState) : MachineState × List Event :=
  writeReg s .GPIOE_BSRR (1 <<< pin)

/-- Embedding of `fn set_led_off(pin: i32)`: unconditional write of `1 << (16 + pin)`
to the bit set/reset register (upper half clears the pin). -/
def set_led_off (pin : Nat) (s : MachineState) : MachineState × List Event :=
  writeReg s .GPIOE_BSRR (1 <<< (16 + pin))

/-- Embedding of `fn read_input() -> bool`: read GPIOA_IDR, mask with `0x1`, return
whether the result is positive. -/
def read_input (s : MachineState) : Bool × List Event :=
  let value := regRead s .GPIOA_IDR
  let mask := 1
  (decide (value &&& mask > 0), [Event.read .GPIOA_IDR value])

/-- Embedding of `fn EXTI0()`, the interrupt handler: modify EXTI_PR1 with `r | 0x1`
(intending to clear the pending interrupt), then read the input pin, then
drive the LED on or off according to the level read. -/
def EXTI0 (s : MachineState) : MachineState × List Event :=
  let a := modifyReg s .EXTI_PR1 fun r => r ||| 1
  let b := read_input a.1
  let switch_pressed := b.1
  let c := if switch_pressed then set_led_on OUTPUT_PIN a.1
           else set_led_off OUTPUT_PIN a.1
  (c.1, a.2 ++ b.2 ++ c.2)

/-- The one-time setup sequence performed by `fn main()` before entering
the heartbeat loop: output pin configuration, input pin configuration,
interrupt routing, in that order. -/
def mainSetup (s : MachineState) : MachineState × List Event :=
  let a := setup_gpioe_pin_as_output OUTPUT_PIN s
  let b := setup_gpioa_pin_as_input a.1
  let c := setup_input_interrupt b.1
  (c.1, a.2 ++ b.2 ++ c.2)

/-- Wrap an integer into the `i32` range (two's complement, as Rust's
release-profile wrapping arithmetic on the heartbeat counter). -/
def i32wrap (x : Int) : Int := (x + 2147483648) % 4294967296 - 2147483648

/-- One iteration of the main loop's counter update: `i += 1` on an
`i32`. -/
def mainLoopStep (i : Int) : Int := i32wrap (i + 1)

/-- The heartbeat counter value printed on the `n`-th loop iteration:
`let mut i = 0;` then `i += 1` once per iteration. -/
def heartbeat : Nat → Int
  | 0 => 0
  | n + 1 => mainLoopStep (heartbeat n)

/-- The post-reset machine state used as a concrete evaluation point:
every register reads zero. -/
def resetState : MachineState :=
  ⟨0, 0, 0, 0, 0, 0, 0, 0, 0, 0, 0⟩

/-! Bit-level helper lemmas. -/

theorem UINT32_MOD_eq : UINT32_MOD = 2 ^ 32 := by norm_num [UINT32_MOD]

theorem testBit_one' (i : Nat) : Nat.testBit 1 i = decide (i = 0) := by
  rw [show (1 : Nat) = 2 ^ 0 from rfl, Nat.testBit_two_pow, decide_eq_decide]
  exact eq_comm

theorem testBit_one_shiftLeft (k i : Nat) :
    (1 <<< k).testBit i = decide (i = k) := by
  rw [Nat.testBit_shiftLeft, testBit_one', ← Bool.decide_and, decide_eq_decide]
  omega

/-- Bit `k` of `(x ||| (1 <<< k)) % 2^32` is set, for `k < 32`. -/
theorem or_bit_set (x k : Nat) (hk : k < 32) :
    ((x ||| (1 <<< k)) % UINT32_MOD).testBit k = true := by
  rw [UINT32_MOD_eq]
  simp only [Nat.testBit_mod_two_pow, Nat.testBit_or, testBit_one_shiftLeft]
  simp [hk]

/-- Bits other than `k` of `(x ||| (1 <<< k)) % 2^32` agree with `x`, below 32. -/
theorem or_bit_frame (x k i : Nat) (hi : i < 32) (hne : i ≠ k) :
    ((x ||| (1 <<< k)) % UINT32_MOD).testBit i = x.testBit i := by
  rw [UINT32_MOD_eq]
  simp only [Nat.testBit_mod_two_pow, Nat.testBit_or, testBit_one_shiftLeft]
  simp [hi, hne]

/-- A set-bit modify is idempotent: OR-ing the same mask in again does not
change the stored 32-bit value. -/
theorem or_mod_idem (x c : Nat) :
    ((x ||| c) % UINT32_MOD ||| c) % UINT32_MOD = (x ||| c) % UINT32_MOD := by
  apply Nat.eq_of_testBit_eq
  intro i
  rw [UINT32_MOD_eq]
  simp only [Nat.testBit_mod_two_pow, Nat.testBit_or]
  by_cases hi : i < 32
  · simp only [hi, decide_True, Bool.true_and]
    cases x.testBit i <;> cases c.testBit i <;> rfl
  · simp [hi]

/-- A clear-bits modify is idempotent. -/
theorem and_mod_idem (x c : Nat) :
    ((x &&& c) % UINT32_MOD &&& c) % UINT32_MOD = (x &&& c) % UINT32_MOD := by
  apply Nat.eq_of_testBit_eq
  intro i
  rw [UINT32_MOD_eq]
  simp only [Nat.testBit_mod_two_pow, Nat.testBit_and]
  by_cases hi : i < 32
  · simp only [hi, decide_True, Bool.true_and]
    cases x.testBit i <;> cases c.testBit i <;> rfl
  · simp [hi]

/-- A clear-field-then-set-field modify is idempotent. -/
theorem andor_mod_idem (x m c : Nat) :
    (((x &&& m) ||| c) % UINT32_MOD &&& m ||| c) % UINT32_MOD
      = ((x &&& m) ||| c) % UINT32_MOD := by
  apply Nat.eq_of_testBit_eq
  intro i
  rw [UINT32_MOD_eq]
  simp only [Nat.testBit_mod_two_pow, Nat.testBit_and, Nat.testBit_or]
  by_cases hi : i < 32
  · simp only [hi, decide_True, Bool.true_and]
    cases x.testBit i <;> cases m.testBit i <;> cases c.testBit i <;> rfl
  · simp [hi]

/-- The boolean the program computes from the input data register is
exactly bit 0 of that register. -/
theorem read_input_testBit (s : MachineState) :
    (read_input s).1 = s.gpioa_idr.testBit 0 := by
  simp only [read_input, regRead]
  have h : s.gpioa_idr &&& 1 = s.gpioa_idr % 2 := Nat.and_one_is_mod _
  simp only [h, Nat.testBit_zero]
  rw [decide_eq_decide]
  omega

/-- The boolean test `value & mask > 0` with `mask = 1` is bit 0. -/
theorem and_one_pos (x : Nat) : decide (x &&& 1 > 0) = x.testBit 0 := by
  have h : x &&& 1 = x % 2 := Nat.and_one_is_mod x
  simp only [gt_iff_lt, h, Nat.testBit_zero]
  rw [decide_eq_decide]
  omega

/-- Writing `1 << 15` to the BSRR asserts output bit 15, whatever the
previous output latch held. -/
theorem bsrrWrite_set_testBit15 (odr : Nat) :
    (bsrrWrite odr 32768).testBit 15 = true := by
  have h1 : (32768 : Nat) &&& 65535 = 32768 := by decide
  have h2 : ((32768 : Nat) >>> 16) &&& 65535 = 0 := by decide
  have h3 : (32768 : Nat).testBit 15 = true := by decide
  simp only [bsrrWrite, h1, h2, UINT32_MOD_eq, Nat.zero_and]
  simp only [Nat.testBit_mod_two_pow, Nat.testBit_or, h3]
  simp

/-- Writing `1 << (16 + 15)` to the BSRR deasserts output bit 15,
whatever the previous output latch held. -/
theorem bsrrWrite_reset_testBit15 (odr : Nat) :
    (bsrrWrite odr 2147483648).testBit 15 = false := by
  have h1 : (2147483648 : Nat) &&& 65535 = 0 := by decide
  have h2 : ((2147483648 : Nat) >>> 16) &&& 65535 = 32768 := by decide
  have h3 : (32768 : Nat) &&& not32 0 = 32768 := by decide
  have h4 : (not32 32768).testBit 15 = false := by decide
  simp only [bsrrWrite, h1, h2, h3, UINT32_MOD_eq]
  simp only [Nat.testBit_mod_two_pow, Nat.testBit_and, Nat.testBit_or, h4]
  simp

/-- Closed form of one handler invocation: final state and full event
trace, as a function of the state at entry. -/
theorem EXTI0_eq (s : MachineState) :
    EXTI0 s =
      ({ s with
          exti_pr1 := s.exti_pr1 &&& not32 ((s.exti_pr1 ||| 1) % UINT32_MOD),
          gpioe_odr := bsrrWrite s.gpioe_odr
            (if s.gpioa_idr.testBit 0 then 32768 else 2147483648) },
       [Event.read Reg.EXTI_PR1 s.exti_pr1,
        Event.write Reg.EXTI_PR1 ((s.exti_pr1 ||| 1) % UINT32_MOD),
        Event.read Reg.GPIOA_IDR s.gpioa_idr,
        Event.write Reg.GPIOE_BSRR
          (if s.gpioa_idr.testBit 0 then 32768 else 2147483648)]) := by
  by_cases h : s.gpioa_idr.testBit 0 = true
  · have h2 : 0 < s.gpioa_idr % 2 := by
      rw [Nat.testBit_zero, decide_eq_true_eq] at h
      omega
    simp [EXTI0, read_input, modifyReg, regRead, regWrite, set_led_on,
      set_led_off, writeReg, OUTPUT_PIN, h, h2, UINT32_MOD]
  · simp only [Bool.not_eq_true] at h
    have h2 : ¬ 0 < s.gpioa_idr % 2 := by
      rw [Nat.testBit_zero, decide_eq_false_iff_not] at h
      omega
    simp [EXTI0, read_input, modifyReg, regRead, regWrite, set_led_on,
      set_led_off, writeReg, OUTPUT_PIN, h, h2, UINT32_MOD]

/-- C1: for every invocation of the interrupt handler `EXTI0` and every
value of the input data register, the driven output level after the
handler returns equals the input level sampled during the invocation:
if bit 0 of GPIOA_IDR reads 1 the handler writes `1 << 15` (= 32768) to
the GPIOE set/reset register, asserting output bit 15, and otherwise it
writes `1 << (16 + 15)` (= 2147483648), deasserting output bit 15. -/
theorem exti0_output_follows_input (s : MachineState) :
    ((EXTI0 s).1.gpioe_odr.testBit 15 = s.gpioa_idr.testBit 0)
    ∧ ((EXTI0 s).2.getLast? = some (Event.write Reg.GPIOE_BSRR
        (if s.gpioa_idr.testBit 0 then 32768 else 2147483648))) := by
  rw [EXTI0_eq]
  refine ⟨?_, rfl⟩
  by_cases h : s.gpioa_idr.testBit 0 = true
  · simp [h, bsrrWrite_set_testBit15]
  · simp only [Bool.not_eq_true] at h
    simp [h, bsrrWrite_reset_testBit15]

/-- C2: every invocation of `EXTI0` starts with the access to the EXTI
pending register: the handler's first write is to EXTI_PR1 and the value
written has bit 0 set (a 1 written to line 0's pending bit, which under
write-1-to-clear semantics clears it), this happens before the input
data register is read, and the handler never returns with its own line's
pending bit still set. -/
theorem exti0_clears_pending_first (s : MachineState) :
    ((EXTI0 s).2 = [Event.read Reg.EXTI_PR1 s.exti_pr1,
        Event.write Reg.EXTI_PR1 ((s.exti_pr1 ||| 1) % UINT32_MOD),
        Event.read Reg.GPIOA_IDR s.gpioa_idr,
        Event.write Reg.GPIOE_BSRR
          (if s.gpioa_idr.testBit 0 then 32768 else 2147483648)])
    ∧ (((s.exti_pr1 ||| 1) % UINT32_MOD).testBit 0 = true)
    ∧ ((EXTI0 s).1.exti_pr1.testBit 0 = false) := by
  refine ⟨by rw [EXTI0_eq], ?_, ?_⟩
  · exact or_bit_set s.exti_pr1 0 (by norm_num)
  · rw [EXTI0_eq]
    simp only [not32, UINT32_MOD_eq, Nat.testBit_and, Nat.testBit_xor,
      Nat.testBit_mod_two_pow, Nat.testBit_or, Nat.testBit_two_pow_sub_one,
      testBit_one']
    cases s.exti_pr1.testBit 0 <;> simp

/-- C5 (code bug): the handler's access to the pending register is a
read-modify-write of `r | 1`; under write-1-to-clear semantics this
writes a 1 to every pending bit that was set, so it does NOT leave other
lines' pending bits unchanged.  Concretely, with line 1 pending at entry
(EXTI_PR1 = 2), after the handler line 1's pending bit has been cleared
as well. -/
theorem exti0_pending_clear_clobbers_other_lines :
    ({ resetState with exti_pr1 := 2 } : MachineState).exti_pr1.testBit 1 = true
    ∧ (EXTI0 { resetState with exti_pr1 := 2 }).1.exti_pr1.testBit 1 = false := by
  constructor <;> decide

/-- C9: `read_input` returns true iff bit 0 of the GPIOA input data
register is nonzero, and bits 1 through 31 have no effect on the
result. -/
theorem read_input_reads_bit_zero (s : MachineState) :
    ((read_input s).1 = true ↔ s.gpioa_idr.testBit 0 = true)
    ∧ (∀ v w : Nat, v.testBit 0 = w.testBit 0 →
        (read_input { s with gpioa_idr := v }).1
          = (read_input { s with gpioa_idr := w }).1) := by
  constructor
  · rw [read_input_testBit]
  · intro v w h
    rw [read_input_testBit, read_input_testBit]
    simpa using h

/-- Witness for C9 at concrete inputs: registers 3 and 1 agree on bit 0,
so `read_input` returns the same value on both. -/
theorem read_input_reads_bit_zero_witness :
    (read_input { resetState with gpioa_idr := 3 }).1
      = (read_input { resetState with gpioa_idr := 1 }).1 :=
  (read_input_reads_bit_zero resetState).2 3 1 (by decide)

/-- C10: `set_led_on 15` and `set_led_off 15` each perform a single
unconditional write (no prior read) to the set/reset register, of a
value with exactly one bit set: bit 15 (value 32768) for on, bit
16 + 15 = 31 (value 2147483648) for off, so no set or reset bit of any
other pin is asserted. -/
theorem set_led_single_bit_write (s : MachineState) :
    ((set_led_on 15 s).2 = [Event.write Reg.GPIOE_BSRR 32768])
    ∧ ((set_led_off 15 s).2 = [Event.write Reg.GPIOE_BSRR 2147483648])
    ∧ (∀ i, (32768 : Nat).testBit i = decide (i = 15))
    ∧ (∀ i, (2147483648 : Nat).testBit i = decide (i = 31)) := by
  refine ⟨?_, ?_, ?_, ?_⟩
  · simp [set_led_on, writeReg, UINT32_MOD]
  · simp [set_led_off, writeReg, UINT32_MOD]
  · intro i
    rw [show (32768 : Nat) = 1 <<< 15 from by norm_num [Nat.shiftLeft_eq],
      testBit_one_shiftLeft]
  · intro i
    rw [show (2147483648 : Nat) = 1 <<< 31 from by norm_num [Nat.shiftLeft_eq],
      testBit_one_shiftLeft]

/-- C8 counterexample: the interrupt-routing stage does not perform only
the five updates named in the claim — its first write goes to
RCC_AHB2ENR (the SYSCFG clock enable), a register not among the five. -/
theorem routing_stage_extra_clock_write :
    ((setup_input_interrupt resetState).2.filter eventIsWrite).map eventReg
      ≠ [Reg.SYSCFG_EXTICR1, Reg.EXTI_IMR1, Reg.EXTI_RTSR1,
         Reg.EXTI_FTSR1, Reg.NVIC_ISER0] := by
  decide

theorem testBit_three (i : Nat) : Nat.testBit 3 i = decide (i < 2) := by
  rw [show (3 : Nat) = 2 ^ 2 - 1 from by norm_num, Nat.testBit_two_pow_sub_one]

theorem testBit_seven (i : Nat) : Nat.testBit 7 i = decide (i < 3) := by
  rw [show (7 : Nat) = 2 ^ 3 - 1 from by norm_num, Nat.testBit_two_pow_sub_one]

/-- Bit pattern of the 2-bit MODER mask for pin 15 (`0b11 << 30`). -/
theorem testBit_mask30 (i : Nat) :
    (3221225472 : Nat).testBit i = decide (i = 30 ∨ i = 31) := by
  rw [show (3221225472 : Nat) = 3 <<< 30 from by norm_num [Nat.shiftLeft_eq],
    Nat.testBit_shiftLeft, testBit_three, ← Bool.decide_and, decide_eq_decide]
  omega

/-- Bit pattern of the MODER value for pin 15 (`0b01 << 30`). -/
theorem testBit_mode30 (i : Nat) :
    (1073741824 : Nat).testBit i = decide (i = 30) := by
  rw [show (1073741824 : Nat) = 1 <<< 30 from by norm_num [Nat.shiftLeft_eq],
    testBit_one_shiftLeft]

/-- Low EXTICR1 port-select bits after the clear-field modify read 0. -/
theorem and_not7_low (x i : Nat) (hi : i < 3) :
    ((x &&& not32 7) % UINT32_MOD).testBit i = false := by
  have hi32 : i < 32 := by omega
  rw [UINT32_MOD_eq]
  simp only [Nat.testBit_mod_two_pow, Nat.testBit_and, not32, UINT32_MOD_eq,
    Nat.testBit_xor, Nat.testBit_two_pow_sub_one, testBit_seven]
  simp [hi, hi32]

/-- Bits 3..31 are untouched by the EXTICR1 clear-field modify. -/
theorem and_not7_frame (x i : Nat) (h3 : 3 ≤ i) (hi : i < 32) :
    ((x &&& not32 7) % UINT32_MOD).testBit i = x.testBit i := by
  have hn : ¬ i < 3 := by omega
  rw [UINT32_MOD_eq]
  simp only [Nat.testBit_mod_two_pow, Nat.testBit_and, not32, UINT32_MOD_eq,
    Nat.testBit_xor, Nat.testBit_two_pow_sub_one, testBit_seven]
  simp [hi, hn]

/-- Closed form of the output-pin configuration stage at pin 15: the two
registers it modifies and its four bus transactions. -/
theorem setup_gpioe_eq (s : MachineState) :
    setup_gpioe_pin_as_output 15 s =
      ({ s with
          rcc_ahbenr := (s.rcc_ahbenr ||| 2097152) % UINT32_MOD,
          gpioe_moder :=
            ((s.gpioe_moder &&& not32 3221225472) ||| 1073741824) % UINT32_MOD },
       [Event.read Reg.RCC_AHBENR s.rcc_ahbenr,
        Event.write Reg.RCC_AHBENR ((s.rcc_ahbenr ||| 2097152) % UINT32_MOD),
        Event.read Reg.GPIOE_MODER s.gpioe_moder,
        Event.write Reg.GPIOE_MODER
          (((s.gpioe_moder &&& not32 3221225472) ||| 1073741824) % UINT32_MOD)]) := by
  simp [setup_gpioe_pin_as_output, modifyReg, regRead, regWrite, not32, UINT32_MOD]

/-- Closed form of the input-pin configuration stage: one clock-enable
modify, nothing else. -/
theorem setup_gpioa_eq (s : MachineState) :
    setup_gpioa_pin_as_input s =
      ({ s with rcc_ahbenr := (s.rcc_ahbenr ||| 131072) % UINT32_MOD },
       [Event.read Reg.RCC_AHBENR s.rcc_ahbenr,
        Event.write Reg.RCC_AHBENR ((s.rcc_ahbenr ||| 131072) % UINT32_MOD)]) := by
  simp [setup_gpioa_pin_as_input, modifyReg, regRead, regWrite, UINT32_MOD]

/-- Closed form of the interrupt-routing stage: the six registers it
modifies and its twelve bus transactions, in program order. -/
theorem setup_input_interrupt_eq (s : MachineState) :
    setup_input_interrupt s =
      ({ s with
          rcc_ahb2enr := (s.rcc_ahb2enr ||| 1) % UINT32_MOD,
          syscfg_exticr1 := (s.syscfg_exticr1 &&& not32 7) % UINT32_MOD,
          exti_imr1 := (s.exti_imr1 ||| 1) % UINT32_MOD,
          exti_rtsr1 := (s.exti_rtsr1 ||| 1) % UINT32_MOD,
          exti_ftsr1 := (s.exti_ftsr1 ||| 1) % UINT32_MOD,
          nvic_iser0 := (s.nvic_iser0 ||| 64) % UINT32_MOD },
       [Event.read Reg.RCC_AHB2ENR s.rcc_ahb2enr,
        Event.write Reg.RCC_AHB2ENR ((s.rcc_ahb2enr ||| 1) % UINT32_MOD),
        Event.read Reg.SYSCFG_EXTICR1 s.syscfg_exticr1,
        Event.write Reg.SYSCFG_EXTICR1 ((s.syscfg_exticr1 &&& not32 7) % UINT32_MOD),
        Event.read Reg.EXTI_IMR1 s.exti_imr1,
        Event.write Reg.EXTI_IMR1 ((s.exti_imr1 ||| 1) % UINT32_MOD),
        Event.read Reg.EXTI_RTSR1 s.exti_rtsr1,
        Event.write Reg.EXTI_RTSR1 ((s.exti_rtsr1 ||| 1) % UINT32_MOD),
        Event.read Reg.EXTI_FTSR1 s.exti_ftsr1,
        Event.write Reg.EXTI_FTSR1 ((s.exti_ftsr1 ||| 1) % UINT32_MOD),
        Event.read Reg.NVIC_ISER0 s.nvic_iser0,
        Event.write Reg.NVIC_ISER0 ((s.nvic_iser0 ||| 64) % UINT32_MOD)]) := by
  simp [setup_input_interrupt, modifyReg, regRead, regWrite, not32, UINT32_MOD]

/-- C3: in the setup sequence run by `main`, the write that sets the
vector-enable bit in NVIC_ISER0 is strictly last: the full transaction
order is the two clock-enable/mode accesses of the output-pin stage, the
clock enable of the input-pin stage, then the SYSCFG clock enable,
routing select, mask, rising trigger and falling trigger, and only then
the NVIC_ISER0 access; the final event of the whole sequence is the
NVIC_ISER0 write and no earlier event is a NVIC_ISER0 write. -/
theorem setup_enables_interrupt_last (s : MachineState) :
    ((mainSetup s).2.map (fun e => (eventReg e, eventIsWrite e)) =
      [(Reg.RCC_AHBENR, false), (Reg.RCC_AHBENR, true),
       (Reg.GPIOE_MODER, false), (Reg.GPIOE_MODER, true),
       (Reg.RCC_AHBENR, false), (Reg.RCC_AHBENR, true),
       (Reg.RCC_AHB2ENR, false), (Reg.RCC_AHB2ENR, true),
       (Reg.SYSCFG_EXTICR1, false), (Reg.SYSCFG_EXTICR1, true),
       (Reg.EXTI_IMR1, false), (Reg.EXTI_IMR1, true),
       (Reg.EXTI_RTSR1, false), (Reg.EXTI_RTSR1, true),
       (Reg.EXTI_FTSR1, false), (Reg.EXTI_FTSR1, true),
       (Reg.NVIC_ISER0, false), (Reg.NVIC_ISER0, true)])
    ∧ ((mainSetup s).2.getLast? =
        some (Event.write Reg.NVIC_ISER0 ((s.nvic_iser0 ||| 64) % UINT32_MOD)))
    ∧ (∀ p ∈ ((mainSetup s).2.map
          (fun e => (eventReg e, eventIsWrite e))).dropLast,
        p ≠ (Reg.NVIC_ISER0, true)) := by
  have h1 : (mainSetup s).2 =
      (setup_gpioe_pin_as_output 15 s).2
        ++ (setup_gpioa_pin_as_input (setup_gpioe_pin_as_output 15 s).1).2
        ++ (setup_input_interrupt
            (setup_gpioa_pin_as_input (setup_gpioe_pin_as_output 15 s).1).1).2 := by
    simp [mainSetup, OUTPUT_PIN]
  refine ⟨?_, ?_, ?_⟩
  · rw [h1, setup_gpioe_eq, setup_gpioa_eq, setup_input_interrupt_eq]
    simp [eventReg, eventIsWrite]
  · rw [h1, setup_gpioe_eq, setup_gpioa_eq, setup_input_interrupt_eq]
    simp [List.getLast?_append, regWrite]
  · rw [h1, setup_gpioe_eq, setup_gpioa_eq, setup_input_interrupt_eq]
    intro p hp
    simp only [List.map_append, List.map_cons, List.map_nil, eventReg,
      eventIsWrite] at hp
    simp only [List.append_assoc, List.cons_append, List.nil_append] at hp
    fin_cases hp <;> decide

/-- Witness for C3 at the reset state: the first element of the mapped
trace with its last element removed is the RCC_AHBENR read, which is not
the NVIC_ISER0 write. -/
theorem setup_enables_interrupt_last_witness :
    ((Reg.RCC_AHBENR, false) : Reg × Bool) ≠ (Reg.NVIC_ISER0, true) :=
  (setup_enables_interrupt_last resetState).2.2 (Reg.RCC_AHBENR, false)
    (by rw [(setup_enables_interrupt_last resetState).1]; decide)

/-- C7: the pin-configuration stage at pin 15 leaves the 2-bit MODER
field at bits 30/31 holding `0b01` (bit 30 set, bit 31 clear) whatever
its prior contents, leaves every other MODER bit unchanged, performs its
only register accesses on RCC_AHBENR and GPIOE_MODER, and the input-pin
stage performs no mode-register access at all (it touches only
RCC_AHBENR). -/
theorem output_pin_mode_field_configured (s : MachineState) :
    ((setup_gpioe_pin_as_output 15 s).1.gpioe_moder.testBit 30 = true)
    ∧ ((setup_gpioe_pin_as_output 15 s).1.gpioe_moder.testBit 31 = false)
    ∧ (∀ i, i < 32 → i ≠ 30 → i ≠ 31 →
        (setup_gpioe_pin_as_output 15 s).1.gpioe_moder.testBit i
          = s.gpioe_moder.testBit i)
    ∧ ((setup_gpioe_pin_as_output 15 s).2.map eventReg
        = [Reg.RCC_AHBENR, Reg.RCC_AHBENR, Reg.GPIOE_MODER, Reg.GPIOE_MODER])
    ∧ ((setup_gpioa_pin_as_input s).2.map eventReg
        = [Reg.RCC_AHBENR, Reg.RCC_AHBENR]) := by
  refine ⟨?_, ?_, ?_, ?_, ?_⟩
  · rw [setup_gpioe_eq, UINT32_MOD_eq]
    simp only [Nat.testBit_mod_two_pow, Nat.testBit_or, Nat.testBit_and,
      testBit_mode30]
    simp
  · rw [setup_gpioe_eq, UINT32_MOD_eq]
    simp only [Nat.testBit_mod_two_pow, Nat.testBit_or, Nat.testBit_and,
      not32, UINT32_MOD_eq, Nat.testBit_xor, Nat.testBit_two_pow_sub_one,
      testBit_mask30, testBit_mode30]
    simp
  · intro i hi h30 h31
    rw [setup_gpioe_eq, UINT32_MOD_eq]
    simp only [Nat.testBit_mod_two_pow, Nat.testBit_or, Nat.testBit_and,
      not32, UINT32_MOD_eq, Nat.testBit_xor, Nat.testBit_two_pow_sub_one,
      testBit_mask30, testBit_mode30]
    simp [hi, h30, h31]
  · rw [setup_gpioe_eq]
    simp [eventReg]
  · rw [setup_gpioa_eq]
    simp [eventReg]

/-- Witness for C7's frame property at bit 0 of the mode register. -/
theorem output_pin_mode_field_configured_witness :
    (setup_gpioe_pin_as_output 15 resetState).1.gpioe_moder.testBit 0
      = resetState.gpioe_moder.testBit 0 :=
  (output_pin_mode_field_configured resetState).2.2.1 0 (by norm_num)
    (by norm_num) (by norm_num)

/-- C8 (amended): the interrupt-routing stage first enables the SYSCFG
clock by a modify that sets bit 0 of RCC_AHB2ENR, and its remaining
updates are exactly the five the claim lists: it clears the low 3 bits
of SYSCFG_EXTICR1 (selecting port A for line 0), sets bit 0 of the
interrupt mask register, sets bit 0 of the rising-trigger register, sets
bit 0 of the falling-trigger register, and sets bit 6 (line 0's vector
bit) in NVIC_ISER0 — each modify leaving the other bits of its target
register unchanged. -/
theorem routing_stage_register_updates (s : MachineState) :
    (((setup_input_interrupt s).2.filter eventIsWrite).map eventReg
       = [Reg.RCC_AHB2ENR, Reg.SYSCFG_EXTICR1, Reg.EXTI_IMR1,
          Reg.EXTI_RTSR1, Reg.EXTI_FTSR1, Reg.NVIC_ISER0])
    ∧ ((setup_input_interrupt s).1.rcc_ahb2enr.testBit 0 = true)
    ∧ (∀ i, i < 32 → i ≠ 0 →
        (setup_input_interrupt s).1.rcc_ahb2enr.testBit i
          = s.rcc_ahb2enr.testBit i)
    ∧ (∀ i, i < 3 →
        (setup_input_interrupt s).1.syscfg_exticr1.testBit i = false)
    ∧ (∀ i, 3 ≤ i → i < 32 →
        (setup_input_interrupt s).1.syscfg_exticr1.testBit i
          = s.syscfg_exticr1.testBit i)
    ∧ ((setup_input_interrupt s).1.exti_imr1.testBit 0 = true)
    ∧ (∀ i, i < 32 → i ≠ 0 →
        (setup_input_interrupt s).1.exti_imr1.testBit i
          = s.exti_imr1.testBit i)
    ∧ ((setup_input_interrupt s).1.exti_rtsr1.testBit 0 = true)
    ∧ (∀ i, i < 32 → i ≠ 0 →
        (setup_input_interrupt s).1.exti_rtsr1.testBit i
          = s.exti_rtsr1.testBit i)
    ∧ ((setup_input_interrupt s).1.exti_ftsr1.testBit 0 = true)
    ∧ (∀ i, i < 32 → i ≠ 0 →
        (setup_input_interrupt s).1.exti_ftsr1.testBit i
          = s.exti_ftsr1.testBit i)
    ∧ ((setup_input_interrupt s).1.nvic_iser0.testBit 6 = true)
    ∧ (∀ i, i < 32 → i ≠ 6 →
        (setup_input_interrupt s).1.nvic_iser0.testBit i
          = s.nvic_iser0.testBit i) := by
  refine ⟨?_, ?_, ?_, ?_, ?_, ?_, ?_, ?_, ?_, ?_, ?_, ?_, ?_⟩
  · rw [setup_input_interrupt_eq]
    simp [eventIsWrite, eventReg]
  · rw [setup_input_interrupt_eq]
    exact or_bit_set s.rcc_ahb2enr 0 (by norm_num)
  · intro i hi h0
    rw [setup_input_interrupt_eq]
    exact or_bit_frame s.rcc_ahb2enr 0 i hi h0
  · intro i hi
    rw [setup_input_interrupt_eq]
    exact and_not7_low s.syscfg_exticr1 i hi
  · intro i h3 hi
    rw [setup_input_interrupt_eq]
    exact and_not7_frame s.syscfg_exticr1 i h3 hi
  · rw [setup_input_interrupt_eq]
    exact or_bit_set s.exti_imr1 0 (by norm_num)
  · intro i hi h0
    rw [setup_input_interrupt_eq]
    exact or_bit_frame s.exti_imr1 0 i hi h0
  · rw [setup_input_interrupt_eq]
    exact or_bit_set s.exti_rtsr1 0 (by norm_num)
  · intro i hi h0
    rw [setup_input_interrupt_eq]
    exact or_bit_frame s.exti_rtsr1 0 i hi h0
  · rw [setup_input_interrupt_eq]
    exact or_bit_set s.exti_ftsr1 0 (by norm_num)
  · intro i hi h0
    rw [setup_input_interrupt_eq]
    exact or_bit_frame s.exti_ftsr1 0 i hi h0
  · rw [setup_input_interrupt_eq]
    exact or_bit_set s.nvic_iser0 6 (by norm_num)
  · intro i hi h6
    rw [setup_input_interrupt_eq]
    exact or_bit_frame s.nvic_iser0 6 i hi h6

/-- Witness for C8's frame properties at concrete bit indices. -/
theorem routing_stage_register_updates_witness :
    ((setup_input_interrupt resetState).1.rcc_ahb2enr.testBit 5
       = resetState.rcc_ahb2enr.testBit 5)
    ∧ ((setup_input_interrupt resetState).1.syscfg_exticr1.testBit 4
       = resetState.syscfg_exticr1.testBit 4) :=
  ⟨(routing_stage_register_updates resetState).2.2.1 5 (by norm_num)
     (by norm_num),
   (routing_stage_register_updates resetState).2.2.2.2.1 4 (by norm_num)
     (by norm_num)⟩

/-- C6: each setup stage is idempotent — running it twice in a row
leaves its target registers with the same final bit pattern as running
it once, for every prior register contents — and field-local: its modify
operations change only the stage's own target bits (port E clock enable
bit 21 and MODER bits 30/31 for the output-pin stage; port A clock
enable bit 17 for the input-pin stage; SYSCFG clock bit 0, EXTICR1 bits
0-2, mask/rising/falling bit 0 and NVIC bit 6 for the routing stage),
every other bit and every other register keeping its prior value. -/
theorem setup_stages_idempotent_and_frame_local (s : MachineState) :
    ((setup_gpioe_pin_as_output OUTPUT_PIN
        (setup_gpioe_pin_as_output OUTPUT_PIN s).1).1
      = (setup_gpioe_pin_as_output OUTPUT_PIN s).1)
    ∧ ((setup_gpioa_pin_as_input (setup_gpioa_pin_as_input s).1).1
      = (setup_gpioa_pin_as_input s).1)
    ∧ ((setup_input_interrupt (setup_input_interrupt s).1).1
      = (setup_input_interrupt s).1)
    ∧ (∀ i, i < 32 → i ≠ 21 →
        (setup_gpioe_pin_as_output OUTPUT_PIN s).1.rcc_ahbenr.testBit i
          = s.rcc_ahbenr.testBit i)
    ∧ (∀ i, i < 32 → i ≠ 30 → i ≠ 31 →
        (setup_gpioe_pin_as_output OUTPUT_PIN s).1.gpioe_moder.testBit i
          = s.gpioe_moder.testBit i)
    ∧ ((setup_gpioe_pin_as_output OUTPUT_PIN s).1.rcc_ahb2enr = s.rcc_ahb2enr
       ∧ (setup_gpioe_pin_as_output OUTPUT_PIN s).1.gpioe_odr = s.gpioe_odr
       ∧ (setup_gpioe_pin_as_output OUTPUT_PIN s).1.gpioa_idr = s.gpioa_idr
       ∧ (setup_gpioe_pin_as_output OUTPUT_PIN s).1.syscfg_exticr1
           = s.syscfg_exticr1
       ∧ (setup_gpioe_pin_as_output OUTPUT_PIN s).1.exti_imr1 = s.exti_imr1
       ∧ (setup_gpioe_pin_as_output OUTPUT_PIN s).1.exti_rtsr1 = s.exti_rtsr1
       ∧ (setup_gpioe_pin_as_output OUTPUT_PIN s).1.exti_ftsr1 = s.exti_ftsr1
       ∧ (setup_gpioe_pin_as_output OUTPUT_PIN s).1.exti_pr1 = s.exti_pr1
       ∧ (setup_gpioe_pin_as_output OUTPUT_PIN s).1.nvic_iser0 = s.nvic_iser0)
    ∧ (∀ i, i < 32 → i ≠ 17 →
        (setup_gpioa_pin_as_input s).1.rcc_ahbenr.testBit i
          = s.rcc_ahbenr.testBit i)
    ∧ ((setup_gpioa_pin_as_input s).1.rcc_ahb2enr = s.rcc_ahb2enr
       ∧ (setup_gpioa_pin_as_input s).1.gpioe_moder = s.gpioe_moder
       ∧ (setup_gpioa_pin_as_input s).1.gpioe_odr = s.gpioe_odr
       ∧ (setup_gpioa_pin_as_input s).1.gpioa_idr = s.gpioa_idr
       ∧ (setup_gpioa_pin_as_input s).1.syscfg_exticr1 = s.syscfg_exticr1
       ∧ (setup_gpioa_pin_as_input s).1.exti_imr1 = s.exti_imr1
       ∧ (setup_gpioa_pin_as_input s).1.exti_rtsr1 = s.exti_rtsr1
       ∧ (setup_gpioa_pin_as_input s).1.exti_ftsr1 = s.exti_ftsr1
       ∧ (setup_gpioa_pin_as_input s).1.exti_pr1 = s.exti_pr1
       ∧ (setup_gpioa_pin_as_input s).1.nvic_iser0 = s.nvic_iser0)
    ∧ (∀ i, i < 32 → i ≠ 0 →
        (setup_input_interrupt s).1.rcc_ahb2enr.testBit i
          = s.rcc_ahb2enr.testBit i)
    ∧ (∀ i, 3 ≤ i → i < 32 →
        (setup_input_interrupt s).1.syscfg_exticr1.testBit i
          = s.syscfg_exticr1.testBit i)
    ∧ (∀ i, i < 32 → i ≠ 0 →
        (setup_input_interrupt s).1.exti_imr1.testBit i
          = s.exti_imr1.testBit i)
    ∧ (∀ i, i < 32 → i ≠ 0 →
        (setup_input_interrupt s).1.exti_rtsr1.testBit i
          = s.exti_rtsr1.testBit i)
    ∧ (∀ i, i < 32 → i ≠ 0 →
        (setup_input_interrupt s).1.exti_ftsr1.testBit i
          = s.exti_ftsr1.testBit i)
    ∧ (∀ i, i < 32 → i ≠ 6 →
        (setup_input_interrupt s).1.nvic_iser0.testBit i
          = s.nvic_iser0.testBit i)
    ∧ ((setup_input_interrupt s).1.rcc_ahbenr = s.rcc_ahbenr
       ∧ (setup_input_interrupt s).1.gpioe_moder = s.gpioe_moder
       ∧ (setup_input_interrupt s).1.gpioe_odr = s.gpioe_odr
       ∧ (setup_input_interrupt s).1.gpioa_idr = s.gpioa_idr
       ∧ (setup_input_interrupt s).1.exti_pr1 = s.exti_pr1) := by
  refine ⟨?_, ?_, ?_, ?_, ?_, ?_, ?_, ?_, ?_, ?_, ?_, ?_, ?_, ?_, ?_⟩
  · simp only [OUTPUT_PIN, setup_gpioe_eq]
    simp [or_mod_idem, andor_mod_idem]
  · simp only [setup_gpioa_eq]
    simp [or_mod_idem]
  · simp only [setup_input_interrupt_eq]
    simp [or_mod_idem, and_mod_idem]
  · intro i hi h21
    simp only [OUTPUT_PIN, setup_gpioe_eq]
    exact or_bit_frame s.rcc_ahbenr 21 i hi h21
  · intro i hi h30 h31
    simp only [OUTPUT_PIN, setup_gpioe_eq]
    rw [UINT32_MOD_eq]
    simp only [Nat.testBit_mod_two_pow, Nat.testBit_or, Nat.testBit_and,
      not32, UINT32_MOD_eq, Nat.testBit_xor, Nat.testBit_two_pow_sub_one,
      testBit_mask30, testBit_mode30]
    simp [hi, h30, h31]
  · simp [OUTPUT_PIN, setup_gpioe_eq]
  · intro i hi h17
    simp only [setup_gpioa_eq]
    exact or_bit_frame s.rcc_ahbenr 17 i hi h17
  · simp [setup_gpioa_eq]
  · intro i hi h0
    simp only [setup_input_interrupt_eq]
    exact or_bit_frame s.rcc_ahb2enr 0 i hi h0
  · intro i h3 hi
    simp only [setup_input_interrupt_eq]
    exact and_not7_frame s.syscfg_exticr1 i h3 hi
  · intro i hi h0
    simp only [setup_input_interrupt_eq]
    exact or_bit_frame s.exti_imr1 0 i hi h0
  · intro i hi h0
    simp only [setup_input_interrupt_eq]
    exact or_bit_frame s.exti_rtsr1 0 i hi h0
  · intro i hi h0
    simp only [setup_input_interrupt_eq]
    exact or_bit_frame s.exti_ftsr1 0 i hi h0
  · intro i hi h6
    simp only [setup_input_interrupt_eq]
    exact or_bit_frame s.nvic_iser0 6 i hi h6
  · simp [setup_input_interrupt_eq]

/-- Witness for C6 at the reset state and concrete bit indices. -/
theorem setup_stages_idempotent_and_frame_local_witness :
    ((setup_input_interrupt (setup_input_interrupt resetState).1).1
      = (setup_input_interrupt resetState).1)
    ∧ ((setup_gpioe_pin_as_output OUTPUT_PIN resetState).1.rcc_ahbenr.testBit 3
      = resetState.rcc_ahbenr.testBit 3) :=
  ⟨(setup_stages_idempotent_and_frame_local resetState).2.2.1,
   (setup_stages_idempotent_and_frame_local resetState).2.2.2.1 3
     (by norm_num) (by norm_num)⟩

/-! The heartbeat counter. -/

theorem i32wrap_bounds (x : Int) :
    -2147483648 ≤ i32wrap x ∧ i32wrap x ≤ 2147483647 := by
  unfold i32wrap
  have h1 : (0 : Int) ≤ (x + 2147483648) % 4294967296 :=
    Int.emod_nonneg _ (by norm_num)
  have h2 : (x + 2147483648) % 4294967296 < 4294967296 :=
    Int.emod_lt_of_pos _ (by norm_num)
  omega

theorem i32wrap_eq_self (x : Int) (h1 : -2147483648 ≤ x)
    (h2 : x ≤ 2147483647) : i32wrap x = x := by
  unfold i32wrap
  rw [Int.emod_eq_of_lt (by omega) (by omega)]
  omega

theorem heartbeat_bounds (n : Nat) :
    -2147483648 ≤ heartbeat n ∧ heartbeat n ≤ 2147483647 := by
  induction n with
  | zero => norm_num [heartbeat]
  | succ n ih =>
    simpa [heartbeat, mainLoopStep] using i32wrap_bounds (heartbeat n + 1)

/-- C4: the heartbeat counter printed by the main loop increases by
exactly 1 on each iteration while below the `i32` maximum; on reaching
the maximum 2147483647 it wraps to the representation's minimum
-2147483648; the counter always stays inside the `i32` range, so the
wraparound step is an ordinary total computation, not an error. -/
theorem heartbeat_increments_and_wraps :
    (∀ n, heartbeat (n + 1) = mainLoopStep (heartbeat n))
    ∧ (∀ n, heartbeat n ≠ 2147483647 → heartbeat (n + 1) = heartbeat n + 1)
    ∧ (∀ n, heartbeat n = 2147483647 → heartbeat (n + 1) = -2147483648)
    ∧ (∀ n, -2147483648 ≤ heartbeat n ∧ heartbeat n ≤ 2147483647) := by
  refine ⟨fun n => rfl, ?_, ?_, heartbeat_bounds⟩
  · intro n h
    have hb := heartbeat_bounds n
    show mainLoopStep (heartbeat n) = heartbeat n + 1
    unfold mainLoopStep
    exact i32wrap_eq_self _ (by omega) (by omega)
  · intro n h
    show mainLoopStep (heartbeat n) = -2147483648
    rw [h]
    norm_num [mainLoopStep, i32wrap]

/-- Witness for C4: at iteration 0 the counter is 0, below the maximum,
and the next iteration prints 1. -/
theorem heartbeat_increments_and_wraps_witness :
    heartbeat 0 ≠ 2147483647 ∧ heartbeat 1 = heartbeat 0 + 1 :=
  ⟨by decide, heartbeat_increments_and_wraps.2.1 0 (by decide)⟩

end STM32
